import Mathlib

/-!
Shallow embedding of the phaser-atlas-viewer core, checked against its
natural-language specification.

Sources embedded here:
* `src/core/SpriteRenderer.ts` — `AtlasLoader` (manifest validation, image
  cross-check, natural sort, object-URL resource handling) and
  `SpriteRenderer.adjustSpritePosition` (trim-aware geometry).
* `src/core/FrameController.ts` — the playback/navigation state machine.

Modelling conventions: JavaScript numbers are embedded as exact arithmetic
(`Int` for manifest/pixel quantities, `ℚ` where fractional values occur),
except where a property's truth depends on binary64 rounding: there the
rounding is modelled explicitly (`fl64`, round-to-nearest-even at 53-bit
precision);
JSON-field presence is `Option`; JS truthiness of a number is "≠ 0"; object
URLs are `Nat` handles tracked in an explicit allocation list; the DOM/timer
layer is outside the model (only the synchronous state transitions and the
emitted notifications are embedded).
-/

namespace AtlasViewer

/-! ### Natural (numeric-aware) string comparison

Models `a.localeCompare(b, undefined, { numeric: true, sensitivity: "base" })`
as used by `AtlasLoader.loadAtlas` to sort frames: the string is cut into
maximal digit runs and non-digit runs; digit runs compare by integer value,
non-digit runs compare as case-folded text, and a digit run sorts before a
non-digit run. -/

/-- One token of a filename: a maximal digit run (by value) or a maximal
non-digit run (case-folded characters). -/
inductive NatTok : Type
  | num (n : Nat)
  | str (s : List Char)
deriving DecidableEq, Repr

/-- Integer value of a digit run. -/
def digitsVal (ds : List Char) : Nat :=
  ds.foldl (fun n c => 10 * n + (c.toNat - 48)) 0

/-- Cut a character list into maximal runs of digits / non-digits and
convert each run into a `NatTok`. -/
def tokenize (s : List Char) : List NatTok :=
  (s.splitBy (fun a b => a.isDigit == b.isDigit)).map fun run =>
    if (run.headD 'a').isDigit then .num (digitsVal run) else .str (run.map Char.toLower)

/-- Plain lexicographic comparison of case-folded character runs, by
character code. -/
def cmpChars : List Char → List Char → Ordering
  | [], [] => .eq
  | [], _ :: _ => .lt
  | _ :: _, [] => .gt
  | a :: as, b :: bs =>
    match compare a.toNat b.toNat with
    | .eq => cmpChars as bs
    | o => o

/-- Comparison of two tokens: numbers by value, text lexicographically,
and a digit run before a non-digit run. -/
def cmpTok : NatTok → NatTok → Ordering
  | .num m, .num n => compare m n
  | .num _, .str _ => .lt
  | .str _, .num _ => .gt
  | .str s, .str t => cmpChars s t

/-- Lexicographic comparison of token lists. -/
def cmpTokList : List NatTok → List NatTok → Ordering
  | [], [] => .eq
  | [], _ :: _ => .lt
  | _ :: _, [] => .gt
  | a :: as, b :: bs =>
    match cmpTok a b with
    | .eq => cmpTokList as bs
    | o => o

/-- Natural (numeric-aware, case-insensitive) comparison of two strings,
modelling `localeCompare` with `numeric: true, sensitivity: "base"`. -/
def naturalCompare (a b : String) : Ordering :=
  cmpTokList (tokenize a.data) (tokenize b.data)

/-! ### Atlas manifest model (`src/types/AtlasTypes.ts` at runtime)

The parsed JSON before validation: every field may be absent, so each field
is an `Option`. JS truthiness of a number is modelled as "≠ 0" (`truthyInt`).
A whole atlas file is `Option AtlasJ`: `none` stands for malformed JSON. -/

/-- Size record of the manifest with possibly-absent fields. -/
structure SizeJ : Type where
  w : Option Int
  h : Option Int
deriving DecidableEq, Repr

/-- Rectangle record of the manifest with possibly-absent fields. -/
structure RectJ : Type where
  x : Option Int
  y : Option Int
  w : Option Int
  h : Option Int
deriving DecidableEq, Repr

/-- One frame record of the manifest as parsed (fields possibly absent). -/
structure FrameJ : Type where
  filename : Option String
  frame : Option RectJ
  sourceSize : Option SizeJ
  spriteSourceSize : Option RectJ
deriving DecidableEq, Repr

/-- One texture-sheet record of the manifest as parsed. -/
structure TextureJ : Type where
  image : Option String
  size : Option SizeJ
  frames : Option (List FrameJ)
deriving DecidableEq, Repr

/-- The parsed manifest root. -/
structure AtlasJ : Type where
  textures : Option (List TextureJ)
deriving DecidableEq, Repr

/-- A manifest byte-source: `none` is a file whose bytes are not valid JSON. -/
abbrev AtlasFile : Type := Option AtlasJ

/-- An image byte-source: `some (w, h)` decodes to a `w × h` bitmap,
`none` is an undecodable image. -/
abbrev ImgFile : Type := Option (Nat × Nat)

/-- JS truthiness of a possibly-absent number: present and nonzero. -/
def truthyInt : Option Int → Bool
  | none => false
  | some v => v != 0

/-- Errors thrown by `AtlasLoader`, one constructor per distinct `throw` /
`reject` site in `SpriteRenderer.ts`, carrying the frame index and filename
where the message does. -/
inductive LoadErr : Type
  | invalidJSON
  | missingTextures
  | noTextures
  | missingTextureField (field : String)
  | invalidTextureSize
  | noFrames
  | frameMissingField (i : Nat) (field : String)
  | frameCoords (i : Nat)
  | frameSourceSize (i : Nat)
  | frameFilename (i : Nat)
  | imageDecode
  | frameBounds (i : Nat) (filename : String)
deriving DecidableEq, Repr

instance {ε α : Type} [DecidableEq ε] [DecidableEq α] : DecidableEq (Except ε α) := fun a b =>
  match a, b with
  | .error e, .error e' =>
    if h : e = e' then isTrue (by rw [h]) else isFalse (by simp [h])
  | .ok x, .ok y =>
    if h : x = y then isTrue (by rw [h]) else isFalse (by simp [h])
  | .error _, .ok _ => isFalse (by simp)
  | .ok _, .error _ => isFalse (by simp)

/-- Model of JavaScript `String.prototype.trim`: strip leading and
trailing whitespace. -/
def jsTrim (s : String) : String :=
  ⟨((s.data.dropWhile Char.isWhitespace).reverse.dropWhile Char.isWhitespace).reverse⟩

/-- Model of `AtlasLoader.validateFrameStructure`: required fields
(`filename`, `frame`, `sourceSize`) must be present; the frame rectangle's
`x`/`y` must satisfy `!(!x && x !== 0)` (present, zero allowed), its `w`/`h`
must be truthy; `sourceSize.w`/`sourceSize.h` must be truthy; `filename`
must be non-empty after trimming. -/
def validateFrameStructure (f : FrameJ) (index : Nat) : Except LoadErr Unit :=
  if f.filename.isNone then .error (.frameMissingField index "filename")
  else if f.frame.isNone then .error (.frameMissingField index "frame")
  else if f.sourceSize.isNone then .error (.frameMissingField index "sourceSize")
  else
    let frameRect := f.frame.getD ⟨none, none, none, none⟩
    if (truthyInt frameRect.x = false ∧ frameRect.x ≠ some 0) ∨
        (truthyInt frameRect.y = false ∧ frameRect.y ≠ some 0) ∨
        truthyInt frameRect.w = false ∨ truthyInt frameRect.h = false then
      .error (.frameCoords index)
    else
      let sourceSize := f.sourceSize.getD ⟨none, none⟩
      if truthyInt sourceSize.w = false ∨ truthyInt sourceSize.h = false then
        .error (.frameSourceSize index)
      else if jsTrim (f.filename.getD "") = "" then
        .error (.frameFilename index)
      else .ok ()

/-- Model of the `texture.frames.forEach` loop in
`AtlasLoader.validateTextureStructure`: validate each frame with its index. -/
def validateFrames : List FrameJ → Nat → Except LoadErr Unit
  | [], _ => .ok ()
  | f :: fs, i =>
    match validateFrameStructure f i with
    | .error e => .error e
    | .ok _ => validateFrames fs (i + 1)

/-- Model of `AtlasLoader.validateTextureStructure`: `image`, `size`,
`frames` must be present; `size.w`/`size.h` must be truthy numbers; `frames`
must be a non-empty array; each frame is validated in order. -/
def validateTextureStructure (texture : TextureJ) : Except LoadErr Unit :=
  if texture.image.isNone then .error (.missingTextureField "image")
  else if texture.size.isNone then .error (.missingTextureField "size")
  else if texture.frames.isNone then .error (.missingTextureField "frames")
  else
    let size := texture.size.getD ⟨none, none⟩
    if truthyInt size.w = false ∨ truthyInt size.h = false then .error .invalidTextureSize
    else
      let frames := texture.frames.getD []
      if frames.length = 0 then .error .noFrames
      else validateFrames frames 0

/-- Model of `AtlasLoader.validateAtlasStructure`: root must carry a
non-empty `textures` array; the first texture is validated. -/
def validateAtlasStructure (data : AtlasJ) : Except LoadErr Unit :=
  if data.textures.isNone then .error .missingTextures
  else
    match data.textures.getD [] with
    | [] => .error .noTextures
    | texture :: _ => validateTextureStructure texture

/-- Model of `AtlasLoader.parseAtlasJSON`: malformed JSON (`none`) throws,
otherwise the structure is validated and the data returned. -/
def parseAtlasJSON (file : AtlasFile) : Except LoadErr AtlasJ :=
  match file with
  | none => .error .invalidJSON
  | some data =>
    match validateAtlasStructure data with
    | .error e => .error e
    | .ok _ => .ok data

/-! ### Resource model and `AtlasLoader` state

`URL.createObjectURL` / `URL.revokeObjectURL` are modelled as a counter of
fresh handles plus the list of currently-allocated handles. -/

/-- An atlas after a successful load (`LoadedAtlas` in `SpriteRenderer.ts`);
`textureURL` is the object-URL handle allocated for the texture file. -/
structure LoadedAtlas : Type where
  data : AtlasJ
  textureURL : Nat
  totalFrames : Nat
  frames : List FrameJ
deriving DecidableEq, Repr

/-- The mutable state of one `AtlasLoader` together with the host's
object-URL registry. -/
structure LoaderState : Type where
  nextURL : Nat
  allocated : List Nat
  loadedAtlas : Option LoadedAtlas
deriving DecidableEq, Repr

/-- A fresh loader over an empty URL registry. -/
def initLoader : LoaderState := ⟨0, [], none⟩

/-- Model of `URL.createObjectURL`: allocate a fresh handle. -/
def createObjectURL (st : LoaderState) : Nat × LoaderState :=
  (st.nextURL, { st with nextURL := st.nextURL + 1, allocated := st.nextURL :: st.allocated })

/-- Model of `URL.revokeObjectURL`: release a handle (idempotent on absent
handles, as in the host API). -/
def revokeObjectURL (u : Nat) (st : LoaderState) : LoaderState :=
  { st with allocated := st.allocated.erase u }

/-- Model of `AtlasLoader.cleanup`: if an atlas is loaded, revoke its
texture URL and drop it. -/
def loaderCleanup (st : LoaderState) : LoaderState :=
  match st.loadedAtlas with
  | some la => { revokeObjectURL la.textureURL st with loadedAtlas := none }
  | none => st

/-- Frame-bounds property of the loop in `AtlasLoader.validateTextureImage`:
the negation of the rejection condition
`x + w > img.width || y + h > img.height` (field accesses use the
post-validation defaults). -/
def FrameInBounds (f : FrameJ) (imgW imgH : Nat) : Prop :=
  let r := f.frame.getD ⟨none, none, none, none⟩
  r.x.getD 0 + r.w.getD 0 ≤ (imgW : Int) ∧ r.y.getD 0 + r.h.getD 0 ≤ (imgH : Int)

instance (f : FrameJ) (imgW imgH : Nat) : Decidable (FrameInBounds f imgW imgH) := by
  unfold FrameInBounds
  infer_instance

/-- The `for` loop of `AtlasLoader.validateTextureImage`: reject with
`frameBounds` at the first frame extending beyond the decoded image. -/
def checkFrameBounds : List FrameJ → Nat → Nat → Nat → Except LoadErr Unit
  | [], _, _, _ => pure ()
  | f :: fs, i, imgW, imgH =>
    let r := f.frame.getD ⟨none, none, none, none⟩
    if r.x.getD 0 + r.w.getD 0 > (imgW : Int) ∨ r.y.getD 0 + r.h.getD 0 > (imgH : Int) then
      .error (.frameBounds i (f.filename.getD ""))
    else checkFrameBounds fs (i + 1) imgW imgH

/-- First texture of the manifest, with the defensive defaults the code's
`atlasData.textures[0]?` optional access supplies. -/
def firstTexture (data : AtlasJ) : TextureJ :=
  (data.textures.getD []).headD ⟨none, none, none⟩

/-- The `console.warn` condition of `AtlasLoader.validateTextureImage`:
declared sheet size and decoded image size differ. -/
def sizeMismatch (data : AtlasJ) (imgW imgH : Nat) : Prop :=
  let size := (firstTexture data).size.getD ⟨none, none⟩
  size.w ≠ some (imgW : Int) ∨ size.h ≠ some (imgH : Int)

instance (data : AtlasJ) (imgW imgH : Nat) : Decidable (sizeMismatch data imgW imgH) := by
  unfold sizeMismatch
  infer_instance

/-- Model of `AtlasLoader.validateTextureImage`: allocate an object URL for
the image, decode it (`none` → `onerror`: revoke and reject with
`imageDecode`); on decode success warn (non-fatally) on a size mismatch,
reject at the first out-of-bounds frame, and revoke the URL on every path
(the `finally` block). Returns (result, state, emitted warnings). -/
def validateTextureImage (file : ImgFile) (atlasData : AtlasJ) (st : LoaderState) :
    Except LoadErr Unit × LoaderState × List String :=
  let (u, st') := createObjectURL st
  match file with
  | none => (.error .imageDecode, revokeObjectURL u st', [])
  | some (imgW, imgH) =>
    let warns := if sizeMismatch atlasData imgW imgH then ["Texture size mismatch"] else []
    let frames := (firstTexture atlasData).frames.getD []
    (checkFrameBounds frames 0 imgW imgH, revokeObjectURL u st', warns)

/-- Insert `x` into a sorted list before the first element it compares
less-or-equal to: the inner step of a stable sort. -/
def insertSorted {α : Type} (le : α → α → Bool) (x : α) : List α → List α
  | [] => [x]
  | y :: ys => if le x y then x :: y :: ys else y :: insertSorted le x ys

/-- Stable sort by a boolean comparator, modelling the (spec-mandated
stable) `Array.prototype.sort`. -/
def sortByLe {α : Type} (le : α → α → Bool) : List α → List α
  | [] => []
  | x :: xs => insertSorted le x (sortByLe le xs)

/-- Comparator `loadAtlas` passes to `sort`, via `naturalCompare`
(`localeCompare` with `numeric: true`): kept when not greater. -/
def frameLe (a b : FrameJ) : Bool :=
  naturalCompare (a.filename.getD "") (b.filename.getD "") ≠ .gt

/-- Frames of the first texture as `loadAtlas` extracts them
(`atlasData.textures[0]?.frames || []`). -/
def framesOfAtlas (data : AtlasJ) : List FrameJ :=
  (firstTexture data).frames.getD []

/-- Model of `AtlasLoader.loadAtlas`: parse and validate the manifest,
allocate the texture object URL, cross-check against the decoded image, sort
the first texture's frames with the natural comparator, store and return the
loaded atlas; on any failure call `cleanup` and propagate the error.
Returns (result, loader/registry state, warnings). -/
def loadAtlas (textureFile : ImgFile) (atlasFile : AtlasFile) (st : LoaderState) :
    Except LoadErr LoadedAtlas × LoaderState × List String :=
  match parseAtlasJSON atlasFile with
  | .error e => (.error e, loaderCleanup st, [])
  | .ok atlasData =>
    let (textureURL, st₁) := createObjectURL st
    match validateTextureImage textureFile atlasData st₁ with
    | (.error e, st₂, warns) => (.error e, loaderCleanup st₂, warns)
    | (.ok _, st₂, warns) =>
      let sortedFrames := sortByLe frameLe (framesOfAtlas atlasData)
      let la : LoadedAtlas :=
        { data := atlasData
          textureURL := textureURL
          totalFrames := sortedFrames.length
          frames := sortedFrames }
      (.ok la, { st₂ with loadedAtlas := some la }, warns)

/-! ### Geometry (`SpriteRenderer.adjustSpritePosition`)

Runtime frame data as the renderer reads it: `spriteSourceSize` and
`sourceSize` are guarded by JS truthiness (`if (spriteSourceSize &&
sourceSize)`), so each is an `Option`. Coordinates are exact rationals. -/

/-- Rational rectangle. -/
structure RectQ : Type where
  x : ℚ
  y : ℚ
  w : ℚ
  h : ℚ
deriving DecidableEq, Repr

/-- Rational size. -/
structure SizeQ : Type where
  w : ℚ
  h : ℚ
deriving DecidableEq, Repr

/-- The part of a runtime `FrameData` record that
`adjustSpritePosition` consumes. -/
structure RFrameData : Type where
  spriteSourceSize : Option RectQ
  sourceSize : Option SizeQ
deriving DecidableEq, Repr

/-- Canvas width from `DEFAULT_CANVAS_CONFIG` in `AppTypes.ts`. -/
def canvasWidth : ℚ := 800

/-- Canvas height from `DEFAULT_CANVAS_CONFIG` in `AppTypes.ts`. -/
def canvasHeight : ℚ := 600

/-- Canvas center as computed in the `SpriteRenderer` constructor. -/
def canvasCenter : ℚ × ℚ := (canvasWidth / 2, canvasHeight / 2)

/-- Model of `SpriteRenderer.adjustSpritePosition`: with trim data present,
re-center by the scaled trim offset; otherwise fall back to canvas center. -/
def adjustSpritePosition (frameData : RFrameData) (scaleFactor : ℚ) : ℚ × ℚ :=
  match frameData.spriteSourceSize, frameData.sourceSize with
  | some sss, some ss =>
    let offsetX := sss.x + sss.w / 2 - ss.w / 2
    let offsetY := sss.y + sss.h / 2 - ss.h / 2
    (canvasCenter.1 + offsetX * scaleFactor, canvasCenter.2 + offsetY * scaleFactor)
  | _, _ => canvasCenter

/-! ### Binary64 rounding

JavaScript `number` is an IEEE-754 binary64 float. Operations whose claims
depend on rounding are modelled with `fl64`: round an exact rational to the
nearest 53-bit-significand value, ties to even (the normal range; the
values in scope are far from overflow and subnormals). -/

/-- Round `N / D` to the nearest integer, ties to even (`D ≠ 0`). -/
def rneNatDiv (N D : Nat) : Nat :=
  let q := N / D
  let r := N % D
  if 2 * r < D then q
  else if D < 2 * r then q + 1
  else if q % 2 = 0 then q else q + 1

/-- Smallest `k` with `2 ^ k ≥ c` (for `c ≥ 1`). -/
def ceilLog2 (c : Nat) : Nat :=
  if c ≤ 1 then 0 else (c - 1).log2 + 1

/-- The binade exponent of `a / b` for `a, b > 0`: the `e` with
`2 ^ e ≤ a / b < 2 ^ (e + 1)`. -/
def floatExp (a b : Nat) : Int :=
  if b ≤ a then ((a / b).log2 : Int)
  else -(ceilLog2 ((b + a - 1) / a) : Int)

/-- Binary64 rounding of the positive rational `a / b`: scale into the
53-bit significand range and round to nearest, ties to even. -/
def fl64Pos (a b : Nat) : ℚ :=
  let e := floatExp a b
  if 52 ≤ e then
    ((rneNatDiv a (b * 2 ^ (e - 52).toNat) * 2 ^ (e - 52).toNat : Nat) : ℚ)
  else
    ((rneNatDiv (a * 2 ^ (52 - e).toNat) b : Nat) : ℚ) / ((2 ^ (52 - e).toNat : Nat) : ℚ)

/-- Binary64 rounding of an exact rational (round to nearest, ties to
even; normal range). -/
def fl64 (q : ℚ) : ℚ :=
  if q = 0 then 0
  else if 0 < q then fl64Pos q.num.toNat q.den
  else -fl64Pos (-q.num).toNat q.den

/-! ### Playback controller (`src/core/FrameController.ts`)

State plus the notifications each public operation emits through
`FrameControllerEvents`. The injected frame-lookup callback is a parameter
`lookup`; the interval timer is outside the model (only the synchronous
transitions are embedded — `startAnimation`/`stopAnimation` mutate no
observable controller state). -/

/-- Observable controller state (`FrameController`'s fields, timer aside). -/
structure CState : Type where
  totalFrames : Nat
  currentFrame : Nat
  isPlaying : Bool
  frameRate : Nat
  isLooping : Bool
deriving DecidableEq, Repr

/-- A fresh controller: field initializers of `FrameController`. -/
def initCState : CState :=
  { totalFrames := 0, currentFrame := 0, isPlaying := false
    frameRate := 12, isLooping := true }

/-- One notification through `FrameControllerEvents`. -/
inductive Ev (α : Type) : Type
  | frameChange (frameIndex : Nat) (frameData : Option α)
  | playStateChange (isPlaying : Bool)
  | frameRateChange (fps : Nat)
deriving DecidableEq, Repr

section Controller

variable {α : Type} (lookup : Nat → Option α)

/-- Model of `FrameController.notifyFrameChange`: one `onFrameChange`
carrying the current frame and the lookup result. -/
def notifyFrameChange (st : CState) : List (Ev α) :=
  [.frameChange st.currentFrame (lookup st.currentFrame)]

/-- Model of `FrameController.setFrame`: silently ignore an out-of-range
index, otherwise set and notify. -/
def setFrame (frameIndex : Int) (st : CState) : CState × List (Ev α) :=
  if frameIndex < 0 ∨ (st.totalFrames : Int) ≤ frameIndex then (st, [])
  else
    let st' := { st with currentFrame := frameIndex.toNat }
    (st', notifyFrameChange lookup st')

/-- Model of `FrameController.setFrameFromProgress`:
`Math.floor(progress * Math.max(0, totalFrames - 1))`, then `setFrame`. -/
def setFrameFromProgress (progress : ℚ) (st : CState) : CState × List (Ev α) :=
  setFrame lookup ⌊progress * (max 0 ((st.totalFrames : Int) - 1) : Int)⌋ st

/-- Binary64 refinement of `FrameController.setFrameFromProgress`:
`progress * Math.max(0, totalFrames - 1)` is a double multiplication, so
the product is rounded before `Math.floor` (the `max` and the subtraction
are exact at the integer sizes in scope). -/
def setFrameFromProgress64 (progress : ℚ) (st : CState) : CState × List (Ev α) :=
  setFrame lookup ⌊fl64 (progress * (max 0 ((st.totalFrames : Int) - 1) : Int))⌋ st

/-- Model of `FrameController.pause`. -/
def pause (st : CState) : CState × List (Ev α) :=
  if st.isPlaying = false then (st, [])
  else ({ st with isPlaying := false }, [.playStateChange false])

/-- Model of `FrameController.play` (timer start not modelled). -/
def play (st : CState) : CState × List (Ev α) :=
  if st.isPlaying = true ∨ st.totalFrames ≤ 1 then (st, [])
  else ({ st with isPlaying := true }, [.playStateChange true])

/-- Model of `FrameController.nextFrame`. -/
def nextFrame (st : CState) : CState × List (Ev α) :=
  if st.totalFrames = 0 then (st, [])
  else
    let nextIndex := st.currentFrame + 1
    if st.totalFrames ≤ nextIndex then
      if st.isLooping = true then setFrame lookup 0 st
      else pause st
    else setFrame lookup (nextIndex : Int) st

/-- Model of `FrameController.previousFrame`. -/
def previousFrame (st : CState) : CState × List (Ev α) :=
  if st.totalFrames = 0 then (st, [])
  else
    let prevIndex : Int :=
      if st.currentFrame = 0 then (st.totalFrames : Int) - 1 else (st.currentFrame : Int) - 1
    setFrame lookup prevIndex st

/-- Model of `FrameController.stop`: `pause()` then `setFrame(0)`. -/
def stop (st : CState) : CState × List (Ev α) :=
  let p := pause (α := α) st
  let q := setFrame lookup 0 p.1
  (q.1, p.2 ++ q.2)

/-- Model of `FrameController.initialize`: stop, set the new total, reset to
frame 0 and notify. -/
def initCtrl (total : Nat) (st : CState) : CState × List (Ev α) :=
  let p := stop lookup st
  let st₂ := { p.1 with totalFrames := total, currentFrame := 0 }
  (st₂, p.2 ++ notifyFrameChange lookup st₂)

/-- Model of `FrameController.togglePlay`. -/
def togglePlay (st : CState) : CState × List (Ev α) :=
  if st.isPlaying = true then pause st else play st

/-- Model of `FrameController.setFrameRate`: ignore out-of-range rates,
otherwise update and notify (timer restart not modelled). -/
def setFrameRate (fps : Int) (st : CState) : CState × List (Ev α) :=
  if fps < 1 ∨ 60 < fps then (st, [])
  else ({ st with frameRate := fps.toNat }, [.frameRateChange fps.toNat])

/-- Model of `FrameController.setLooping`. -/
def setLooping (enabled : Bool) (st : CState) : CState × List (Ev α) :=
  ({ st with isLooping := enabled }, [])

/-- Model of `FrameController.goToFirstFrame`. -/
def goToFirstFrame (st : CState) : CState × List (Ev α) :=
  setFrame lookup 0 st

/-- Model of `FrameController.goToLastFrame`. -/
def goToLastFrame (st : CState) : CState × List (Ev α) :=
  setFrame lookup ((st.totalFrames : Int) - 1) st

/-- Model of `FrameController.skipFrames`: clamp `currentFrame + count`
into range, then `setFrame`. -/
def skipFrames (count : Int) (st : CState) : CState × List (Ev α) :=
  setFrame lookup (max 0 (min ((st.totalFrames : Int) - 1) ((st.currentFrame : Int) + count))) st

/-- Model of `FrameController.cleanup`. -/
def cleanupC (st : CState) : CState × List (Ev α) :=
  let p := stop lookup st
  ({ p.1 with totalFrames := 0, currentFrame := 0, frameRate := 12 }, p.2)

/-- Model of `FrameController.getProgress`: the division
`currentFrame / (totalFrames - 1)` is a binary64 operation, so its result
is rounded (`totalFrames - 1` itself is exact for the sizes in scope). -/
def getProgress (st : CState) : ℚ :=
  if st.totalFrames ≤ 1 then 0
  else fl64 ((st.currentFrame : ℚ) / ((st.totalFrames : ℚ) - 1))

end Controller

/-- All public operations of the playback controller, for the state
invariant. -/
inductive COp : Type
  | initCtrl (total : Nat)
  | setFrame (frameIndex : Int)
  | setFrameFromProgress (progress : ℚ)
  | nextFrame
  | previousFrame
  | play
  | pause
  | stop
  | togglePlay
  | setFrameRate (fps : Int)
  | setLooping (enabled : Bool)
  | goToFirstFrame
  | goToLastFrame
  | skipFrames (count : Int)
  | cleanup

/-- Dispatch one public operation on the controller. -/
def applyOp {α : Type} (lookup : Nat → Option α) : COp → CState → CState × List (Ev α)
  | .initCtrl n => initCtrl lookup n
  | .setFrame i => setFrame lookup i
  | .setFrameFromProgress p => setFrameFromProgress lookup p
  | .nextFrame => nextFrame lookup
  | .previousFrame => previousFrame lookup
  | .play => play
  | .pause => pause
  | .stop => stop lookup
  | .togglePlay => togglePlay
  | .setFrameRate fps => setFrameRate fps
  | .setLooping b => setLooping b
  | .goToFirstFrame => goToFirstFrame lookup
  | .goToLastFrame => goToLastFrame lookup
  | .skipFrames c => skipFrames lookup c
  | .cleanup => cleanupC lookup

/-- The frame-index invariant of the spec's PlaybackState: `currentFrame`
lies in `[0, totalFrames-1]` when frames exist, and is pinned to 0 when the
controller is empty. -/
def Inv (st : CState) : Prop :=
  (st.totalFrames = 0 → st.currentFrame = 0) ∧
  (1 ≤ st.totalFrames → st.currentFrame < st.totalFrames)

instance (st : CState) : Decidable (Inv st) := by
  unfold Inv
  infer_instance

/-- Trivial lookup used to instantiate witnesses. -/
def lookup0 : Nat → Option Unit := fun _ => none

/-- Number of `onFrameChange` notifications in an event trace. -/
def countFC {α : Type} (evs : List (Ev α)) : Nat :=
  evs.countP fun e =>
    match e with
    | .frameChange _ _ => true
    | _ => false

/-- The frame-rectangle condition `validateFrameStructure` actually
enforces: `x` and `y` present (zero allowed), `w` and `h` truthy (present
and nonzero — sign is not checked). -/
def RectOk (r : RectJ) : Prop :=
  r.x ≠ none ∧ r.y ≠ none ∧ truthyInt r.w = true ∧ truthyInt r.h = true

instance (r : RectJ) : Decidable (RectOk r) := by
  unfold RectOk
  infer_instance

/-- Filenames of a load result, in order (empty on a failed load). -/
def loadedFilenames (r : Except LoadErr LoadedAtlas) : List String :=
  match r with
  | .ok la => la.frames.map fun f => f.filename.getD ""
  | .error _ => []

/-! ### Concrete fixtures for scenarios, witnesses and counterexamples -/

/-- A structurally valid 16×16 frame at the sheet origin, named `name`. -/
def mkFrame (name : String) : FrameJ :=
  { filename := some name
    frame := some ⟨some 0, some 0, some 16, some 16⟩
    sourceSize := some ⟨some 16, some 16⟩
    spriteSourceSize := none }

/-- The spec's natural-sort scenario manifest: frames named
`a_02.png`, `a_10.png`, `a_1.png` on a 64×64 sheet. -/
def scenarioAtlas : AtlasJ :=
  { textures := some [
      { image := some "sheet.png"
        size := some ⟨some 64, some 64⟩
        frames := some [mkFrame "a_02.png", mkFrame "a_10.png", mkFrame "a_1.png"] }] }

/-- The atlas the scenario load produces. -/
def scenarioLoaded : LoadedAtlas :=
  { data := scenarioAtlas
    textureURL := 0
    totalFrames := 3
    frames := [mkFrame "a_1.png", mkFrame "a_02.png", mkFrame "a_10.png"] }

/-- The loader state after the scenario load. -/
def scenarioState : LoaderState :=
  { nextURL := 2, allocated := [0], loadedAtlas := some scenarioLoaded }

/-- A structurally valid frame whose rectangle (16×16) extends beyond an
8×8 decoded image. -/
def oobFrame : FrameJ :=
  { filename := some "a.png"
    frame := some ⟨some 0, some 0, some 16, some 16⟩
    sourceSize := some ⟨some 16, some 16⟩
    spriteSourceSize := none }

/-- Manifest holding only `oobFrame`, declared sheet size 8×8. -/
def oobAtlas : AtlasJ :=
  { textures := some [
      { image := some "sheet.png"
        size := some ⟨some 8, some 8⟩
        frames := some [oobFrame] }] }

/-- A frame whose rectangle has a negative width `-3`: not a positive
number, yet truthy. -/
def negFrame : FrameJ :=
  { filename := some "n.png"
    frame := some ⟨some 0, some 0, some (-3), some 4⟩
    sourceSize := some ⟨some 4, some 4⟩
    spriteSourceSize := none }

/-- Manifest holding only `negFrame` on an 8×8 sheet. -/
def negAtlas : AtlasJ :=
  { textures := some [
      { image := some "sheet.png"
        size := some ⟨some 8, some 8⟩
        frames := some [negFrame] }] }

/-- The atlas `negAtlas` loads to (the negative-width frame is accepted). -/
def negLoaded : LoadedAtlas :=
  { data := negAtlas
    textureURL := 0
    totalFrames := 1
    frames := [negFrame] }

/-- Manifest whose second frame (index 1) is missing its rectangle `x`. -/
def badCoordsAtlas : AtlasJ :=
  { textures := some [
      { image := some "sheet.png"
        size := some ⟨some 64, some 64⟩
        frames := some [mkFrame "ok.png",
          { filename := some "bad.png"
            frame := some ⟨none, some 0, some 16, some 16⟩
            sourceSize := some ⟨some 16, some 16⟩
            spriteSourceSize := none }] }] }

/-! ### Helper lemmas on the controller -/

theorem setFrame_fst {α : Type} (lookup : Nat → Option α) (i : Int) (st : CState) :
    (setFrame lookup i st).1 =
      if i < 0 ∨ (st.totalFrames : Int) ≤ i then st else { st with currentFrame := i.toNat } := by
  unfold setFrame
  split <;> simp_all

theorem setFrame_set {α : Type} (lookup : Nat → Option α) (i : Int) (st : CState)
    (h0 : 0 ≤ i) (h1 : i < (st.totalFrames : Int)) :
    (setFrame lookup i st).1 = { st with currentFrame := i.toNat } := by
  rw [setFrame_fst, if_neg]
  omega

theorem setFrame_skip {α : Type} (lookup : Nat → Option α) (i : Int) (st : CState)
    (h : i < 0 ∨ (st.totalFrames : Int) ≤ i) :
    setFrame lookup i st = (st, []) := by
  unfold setFrame
  rw [if_pos h]

theorem inv_setFrame {α : Type} (lookup : Nat → Option α) (i : Int) (st : CState)
    (h : Inv st) : Inv (setFrame lookup i st).1 := by
  rw [setFrame_fst]
  split
  · exact h
  · rename_i hg
    push_neg at hg
    constructor <;> intro ht <;> dsimp only at ht ⊢ <;> omega

theorem pause_fst {α : Type} (st : CState) :
    (pause (α := α) st).1 = { st with isPlaying := false } := by
  unfold pause
  split
  · rename_i h
    cases st
    simp_all
  · rfl

theorem stop_fst {α : Type} (lookup : Nat → Option α) (st : CState) :
    (stop lookup st).1 = (setFrame lookup 0 { st with isPlaying := false }).1 := by
  unfold stop
  dsimp only
  rw [pause_fst]

theorem inv_stop {α : Type} (lookup : Nat → Option α) (st : CState) (h : Inv st) :
    Inv (stop lookup st).1 := by
  rw [stop_fst]
  exact inv_setFrame lookup 0 _ ⟨fun ht => h.1 ht, fun ht => h.2 ht⟩

/-! ### Claim C4 -/

/-- C4: `nextFrame()` on an empty controller is a no-op; on the last frame it
leaves `currentFrame` unchanged and ends up not playing when looping is
disabled, and wraps to frame 0 when looping is enabled; below the last frame
it advances `currentFrame` by one. -/
theorem C4_nextFrame_spec {α : Type} (lookup : Nat → Option α) (st : CState) :
    (st.totalFrames = 0 → nextFrame lookup st = (st, [])) ∧
    (1 ≤ st.totalFrames → st.currentFrame = st.totalFrames - 1 →
      (st.isLooping = false →
        (nextFrame lookup st).1.currentFrame = st.currentFrame ∧
        (nextFrame lookup st).1.isPlaying = false) ∧
      (st.isLooping = true → (nextFrame lookup st).1.currentFrame = 0)) ∧
    (st.currentFrame < st.totalFrames - 1 →
      (nextFrame lookup st).1.currentFrame = st.currentFrame + 1) := by
  refine ⟨fun h0 => ?_, fun h1 hlast => ⟨fun hnl => ?_, fun hl => ?_⟩, fun hmid => ?_⟩
  · unfold nextFrame
    rw [if_pos h0]
  · unfold nextFrame
    rw [if_neg (by omega), if_pos (by omega), if_neg (by simp [hnl]), pause_fst]
    exact ⟨rfl, rfl⟩
  · unfold nextFrame
    rw [if_neg (by omega), if_pos (by omega), if_pos hl,
      setFrame_set lookup 0 st (by omega) (by omega)]
    rfl
  · unfold nextFrame
    rw [if_neg (by omega), if_neg (by omega),
      setFrame_set lookup _ st (by omega) (by omega)]
    simp

/-- Witness for C4 at a concrete state: on the last frame of a 3-frame,
non-looping, playing controller, `nextFrame` keeps frame 2 and stops. -/
theorem C4_nextFrame_spec_witness :
    (nextFrame lookup0 ⟨3, 2, true, 12, false⟩).1.currentFrame = 2 ∧
    (nextFrame lookup0 ⟨3, 2, true, 12, false⟩).1.isPlaying = false :=
  ((C4_nextFrame_spec lookup0 ⟨3, 2, true, 12, false⟩).2.1 (by decide) (by decide)).1 rfl

/-! ### Claim C5 -/

/-- C5: every public operation of the playback controller preserves the
invariant that `currentFrame` lies in `[0, totalFrames-1]` when
`totalFrames ≥ 1` and equals 0 when `totalFrames = 0`. -/
theorem C5_invariant_preserved {α : Type} (lookup : Nat → Option α) (op : COp)
    (st : CState) (h : Inv st) : Inv (applyOp lookup op st).1 := by
  cases op with
  | initCtrl n =>
    exact ⟨fun _ => rfl, fun hn => by simpa using hn⟩
  | setFrame i => exact inv_setFrame lookup i st h
  | setFrameFromProgress p => exact inv_setFrame lookup _ st h
  | nextFrame =>
    show Inv (nextFrame lookup st).1
    unfold nextFrame
    dsimp only
    split
    · exact h
    · split
      · split
        · exact inv_setFrame lookup 0 st h
        · rw [pause_fst]
          exact ⟨fun ht => h.1 ht, fun ht => h.2 ht⟩
      · exact inv_setFrame lookup _ st h
  | previousFrame =>
    show Inv (previousFrame lookup st).1
    unfold previousFrame
    split
    · exact h
    · exact inv_setFrame lookup _ st h
  | play =>
    show Inv (play st).1
    unfold play
    split
    · exact h
    · exact ⟨fun ht => h.1 ht, fun ht => h.2 ht⟩
  | pause =>
    show Inv (pause st).1
    rw [pause_fst]
    exact ⟨fun ht => h.1 ht, fun ht => h.2 ht⟩
  | stop => exact inv_stop lookup st h
  | togglePlay =>
    show Inv (togglePlay st).1
    unfold togglePlay play
    split
    · rw [pause_fst]
      exact ⟨fun ht => h.1 ht, fun ht => h.2 ht⟩
    · split
      · exact h
      · exact ⟨fun ht => h.1 ht, fun ht => h.2 ht⟩
  | setFrameRate fps =>
    show Inv (setFrameRate fps st).1
    unfold setFrameRate
    split
    · exact h
    · exact ⟨fun ht => h.1 ht, fun ht => h.2 ht⟩
  | setLooping b => exact ⟨fun ht => h.1 ht, fun ht => h.2 ht⟩
  | goToFirstFrame => exact inv_setFrame lookup 0 st h
  | goToLastFrame => exact inv_setFrame lookup _ st h
  | skipFrames c => exact inv_setFrame lookup _ st h
  | cleanup =>
    refine ⟨fun _ => rfl, fun hn => ?_⟩
    simp [applyOp, cleanupC] at hn

/-- Witness for C5: `nextFrame` applied to the concrete state (3 frames,
frame 1) preserves the invariant. -/
theorem C5_invariant_preserved_witness :
    Inv ⟨3, 1, false, 12, true⟩ ∧ Inv (applyOp lookup0 COp.nextFrame ⟨3, 1, false, 12, true⟩).1 :=
  ⟨by decide, C5_invariant_preserved lookup0 COp.nextFrame ⟨3, 1, false, 12, true⟩ (by decide)⟩

/-! ### Claim C7 -/

/-- C7: with at least one frame and a progress value in `[0,1]`,
`setFrameFromProgress(p)` sets the frame index to
`floor(p * (totalFrames - 1))`; in particular progress 0 yields frame 0 and
progress 1 yields the last frame. -/
theorem C7_setFrameFromProgress_floor {α : Type} (lookup : Nat → Option α) (st : CState)
    (p : ℚ) (htot : 1 ≤ st.totalFrames) (hp0 : 0 ≤ p) (hp1 : p ≤ 1) :
    (((setFrameFromProgress lookup p st).1.currentFrame : Int) =
      ⌊p * ((st.totalFrames : ℚ) - 1)⌋) ∧
    (p = 0 → (setFrameFromProgress lookup p st).1.currentFrame = 0) ∧
    (p = 1 → (setFrameFromProgress lookup p st).1.currentFrame = st.totalFrames - 1) := by
  have hmax : max 0 ((st.totalFrames : Int) - 1) = (st.totalFrames : Int) - 1 := by omega
  have hcast : ((((st.totalFrames : Int) - 1) : Int) : ℚ) = (st.totalFrames : ℚ) - 1 := by
    push_cast
    ring
  have hm1 : (st.totalFrames : ℚ) - 1 = ((st.totalFrames - 1 : Nat) : ℚ) := by
    have h' : ((st.totalFrames - 1 : Nat) : ℚ) = (st.totalFrames : ℚ) - 1 := by
      push_cast [htot]
      ring
    exact h'.symm
  have hfl0 : 0 ≤ ⌊p * ((st.totalFrames : ℚ) - 1)⌋ := by
    apply Int.floor_nonneg.mpr
    apply mul_nonneg hp0
    rw [hm1]
    positivity
  have hfl1 : ⌊p * ((st.totalFrames : ℚ) - 1)⌋ ≤ ((st.totalFrames - 1 : Nat) : Int) := by
    rw [hm1]
    calc ⌊p * ((st.totalFrames - 1 : Nat) : ℚ)⌋
        ≤ ⌊((st.totalFrames - 1 : Nat) : ℚ)⌋ :=
          Int.floor_le_floor (mul_le_of_le_one_left (by positivity) hp1)
      _ = ((st.totalFrames - 1 : Nat) : Int) := Int.floor_natCast _
  have hset : (setFrameFromProgress lookup p st).1 =
      { st with currentFrame := (⌊p * ((st.totalFrames : ℚ) - 1)⌋).toNat } := by
    unfold setFrameFromProgress
    rw [hmax, hcast, setFrame_set lookup _ st hfl0 (by omega)]
  have hmain : ((setFrameFromProgress lookup p st).1.currentFrame : Int) =
      ⌊p * ((st.totalFrames : ℚ) - 1)⌋ := by
    rw [hset]
    exact Int.toNat_of_nonneg hfl0
  refine ⟨hmain, fun h0 => ?_, fun h1 => ?_⟩
  · have : ((setFrameFromProgress lookup p st).1.currentFrame : Int) = 0 := by
      rw [hmain, h0]
      simp
    omega
  · have : ((setFrameFromProgress lookup p st).1.currentFrame : Int) =
        ((st.totalFrames - 1 : Nat) : Int) := by
      rw [hmain, h1, one_mul, hm1, Int.floor_natCast]
    omega

/-- Witness for C7: in a 5-frame controller, progress 1/2 lands on
`floor((1/2) * 4) = 2`. -/
theorem C7_setFrameFromProgress_floor_witness :
    ((setFrameFromProgress lookup0 (1 / 2 : ℚ) ⟨5, 0, false, 12, true⟩).1.currentFrame : Int) =
      ⌊(1 / 2 : ℚ) * (((⟨5, 0, false, 12, true⟩ : CState).totalFrames : ℚ) - 1)⌋ :=
  (C7_setFrameFromProgress_floor lookup0 ⟨5, 0, false, 12, true⟩ (1 / 2)
    (by norm_num) (by norm_num) (by norm_num)).1

/-! ### Claim C10 -/

set_option maxRecDepth 10000

theorem fl64_zero : fl64 0 = 0 := by
  unfold fl64
  rw [if_pos rfl]

theorem fl64_one_div_49 :
    fl64 ((1 : ℚ) / 49) = (5882252574524729 : ℚ) / 288230376151711744 := by
  unfold fl64
  rw [if_neg (by norm_num), if_pos (by norm_num)]
  rw [show ((1 : ℚ) / 49).num = 1 from by norm_num,
    show ((1 : ℚ) / 49).den = 49 from by norm_num,
    show (1 : Int).toNat = 1 from rfl]
  unfold fl64Pos
  rw [show floatExp 1 49 = -6 from by norm_num [floatExp, ceilLog2, Nat.log2]]
  norm_num [rneNatDiv, show Int.toNat 58 = 58 from rfl]

theorem fl64_near_one :
    ⌊fl64 ((5882252574524729 : ℚ) / 288230376151711744 * ((49 : Int) : ℚ))⌋ = 0 := by
  have hmul : (5882252574524729 : ℚ) / 288230376151711744 * ((49 : Int) : ℚ) =
      288230376151711721 / 288230376151711744 := by
    push_cast
    norm_num
  rw [hmul]
  unfold fl64
  rw [if_neg (by norm_num), if_pos (by norm_num)]
  rw [show ((288230376151711721 : ℚ) / 288230376151711744).num = 288230376151711721 from by
      norm_num,
    show ((288230376151711721 : ℚ) / 288230376151711744).den = 288230376151711744 from by
      norm_num,
    show (288230376151711721 : Int).toNat = 288230376151711721 from rfl]
  unfold fl64Pos
  rw [show floatExp 288230376151711721 288230376151711744 = -1 from by
    norm_num [floatExp, ceilLog2, Nat.log2]]
  norm_num [rneNatDiv, show Int.toNat 53 = 53 from rfl]

theorem fl64_one : fl64 (1 : ℚ) = 1 := by
  unfold fl64
  rw [if_neg (by norm_num), if_pos (by norm_num), Rat.num_one, Rat.den_one,
    show (1 : Int).toNat = 1 from rfl]
  unfold fl64Pos
  rw [show floatExp 1 1 = 0 from by norm_num [floatExp, Nat.log2]]
  norm_num [rneNatDiv, show Int.toNat 52 = 52 from rfl]

theorem fl64_fortynine : fl64 (((49 : Int) : ℚ)) = 49 := by
  unfold fl64
  rw [show (((49 : Int) : ℚ)) = (49 : ℚ) from by push_cast; ring]
  rw [if_neg (by norm_num), if_pos (by norm_num)]
  rw [show (49 : ℚ).num = 49 from by norm_num, show (49 : ℚ).den = 1 from by norm_num,
    show (49 : Int).toNat = 49 from rfl]
  unfold fl64Pos
  rw [show floatExp 49 1 = 5 from by norm_num [floatExp, Nat.log2]]
  norm_num [rneNatDiv, show Int.toNat 47 = 47 from rfl]

/-- C10 counterexample: in binary64 arithmetic — which is what the program
computes with — the round-trip `setFrameFromProgress(getProgress())` does
NOT leave `currentFrame` unchanged: at `totalFrames = 50`,
`currentFrame = 1`, `getProgress()` is `fl64(1/49)`, the product
`fl64(fl64(1/49) * 49) = (2^53 - 1) / 2^53` falls just below 1, and its
floor is 0, so frame 1 snaps to frame 0. -/
theorem C10_roundtrip_shifts_frame :
    getProgress ⟨50, 1, false, 12, true⟩ =
      (5882252574524729 : ℚ) / 288230376151711744 ∧
    (setFrameFromProgress64 lookup0 (getProgress ⟨50, 1, false, 12, true⟩)
        ⟨50, 1, false, 12, true⟩).1.currentFrame = 0 ∧
    (⟨50, 1, false, 12, true⟩ : CState).currentFrame = 1 := by
  have hp : getProgress ⟨50, 1, false, 12, true⟩ =
      (5882252574524729 : ℚ) / 288230376151711744 := by
    unfold getProgress
    rw [if_neg (by decide)]
    dsimp only
    rw [show ((1 : Nat) : ℚ) / (((50 : Nat) : ℚ) - 1) = 1 / 49 from by push_cast; norm_num]
    exact fl64_one_div_49
  refine ⟨hp, ?_, rfl⟩
  rw [hp]
  unfold setFrameFromProgress64
  dsimp only
  rw [show (max 0 (((50 : Nat) : Int) - 1)) = 49 from by omega]
  rw [fl64_near_one, setFrame_set lookup0 0 _ le_rfl (by decide)]
  rfl

/-- C10 (amended): `getProgress()` returns the binary64 rounding of
`currentFrame / (totalFrames - 1)` when frames exist (0 whenever
`totalFrames ≤ 1`). The round-trip `setFrameFromProgress(getProgress())`
leaves `currentFrame` unchanged when `totalFrames ≤ 1` or at frame 0, and
at the last frame of a 50-frame controller; for intermediate frames the
double rounding can shift the frame down by one. -/
theorem C10_getProgress_roundtrip {α : Type} (lookup : Nat → Option α) (st : CState)
    (h : Inv st) :
    (1 ≤ st.totalFrames →
      getProgress st = fl64 ((st.currentFrame : ℚ) / ((st.totalFrames : ℚ) - 1))) ∧
    (st.totalFrames ≤ 1 → getProgress st = 0) ∧
    (st.totalFrames ≤ 1 →
      (setFrameFromProgress64 lookup (getProgress st) st).1.currentFrame = st.currentFrame) ∧
    (st.currentFrame = 0 →
      (setFrameFromProgress64 lookup (getProgress st) st).1.currentFrame = st.currentFrame) ∧
    ((setFrameFromProgress64 lookup (getProgress ⟨50, 49, false, 12, true⟩)
        ⟨50, 49, false, 12, true⟩).1.currentFrame = 49) := by
  have hzero : ∀ s : CState, getProgress s = 0 →
      (setFrameFromProgress64 lookup (getProgress s) s).1.currentFrame = s.currentFrame ∨
      (setFrameFromProgress64 lookup (getProgress s) s).1.currentFrame = 0 := by
    intro s hp
    rw [hp]
    unfold setFrameFromProgress64
    rw [zero_mul, fl64_zero, Int.floor_zero]
    rcases Nat.eq_zero_or_pos s.totalFrames with h0 | hpos
    · rw [setFrame_skip lookup 0 s (Or.inr (by omega))]
      exact Or.inl rfl
    · rw [setFrame_set lookup 0 s le_rfl (by omega)]
      exact Or.inr rfl
  refine ⟨fun h1 => ?_, fun hle => ?_, fun hle => ?_, fun hc0 => ?_, ?_⟩
  · unfold getProgress
    split
    · rename_i hc
      have hc0 : st.currentFrame = 0 := by
        have := h.2 h1
        omega
      have hn1 : st.totalFrames = 1 := by omega
      rw [hc0, hn1]
      rw [show ((0 : Nat) : ℚ) / (((1 : Nat) : ℚ) - 1) = 0 from by norm_num]
      rw [fl64_zero]
    · rfl
  · unfold getProgress
    rw [if_pos hle]
  · have hp : getProgress st = 0 := by
      unfold getProgress
      rw [if_pos hle]
    rcases hzero st hp with hz | hz
    · exact hz
    · rw [hz]
      rcases Nat.eq_zero_or_pos st.totalFrames with h0 | hpos
      · exact (h.1 h0).symm
      · have := h.2 (by omega)
        omega
  · have hp : getProgress st = 0 := by
      unfold getProgress
      split
      · rfl
      · rw [hc0]
        rw [show ((0 : Nat) : ℚ) / ((st.totalFrames : ℚ) - 1) = 0 from by
          rw [Nat.cast_zero, zero_div]]
        exact fl64_zero
    rcases hzero st hp with hz | hz
    · exact hz
    · rw [hz, hc0]
  · have hp : getProgress ⟨50, 49, false, 12, true⟩ = 1 := by
      unfold getProgress
      rw [if_neg (by decide)]
      dsimp only
      rw [show ((49 : Nat) : ℚ) / (((50 : Nat) : ℚ) - 1) = 1 from by push_cast; norm_num]
      exact fl64_one
    rw [hp]
    unfold setFrameFromProgress64
    dsimp only
    rw [show (max 0 (((50 : Nat) : Int) - 1)) = 49 from by omega, one_mul, fl64_fortynine]
    rw [show ⌊(49 : ℚ)⌋ = 49 from by norm_num]
    rw [setFrame_set lookup 49 _ (by omega) (by decide)]
    rfl

/-- Witness for C10 (amended): round-trip at frame 0 of a 7-frame
controller. -/
theorem C10_getProgress_roundtrip_witness :
    (setFrameFromProgress64 lookup0 (getProgress ⟨7, 0, false, 12, true⟩)
      ⟨7, 0, false, 12, true⟩).1.currentFrame = (⟨7, 0, false, 12, true⟩ : CState).currentFrame :=
  (C10_getProgress_roundtrip lookup0 ⟨7, 0, false, 12, true⟩ (by decide)).2.2.2.1 rfl

/-! ### Claim C6: frame-change notification counting -/

theorem countFC_append {α : Type} (a b : List (Ev α)) :
    countFC (a ++ b) = countFC a + countFC b :=
  List.countP_append _ _ _

theorem countFC_pause {α : Type} (st : CState) : countFC (pause (α := α) st).2 = 0 := by
  unfold pause
  split <;> simp [countFC]

theorem countFC_setFrame {α : Type} (lookup : Nat → Option α) (i : Int) (st : CState) :
    countFC (setFrame lookup i st).2 =
      if i < 0 ∨ (st.totalFrames : Int) ≤ i then 0 else 1 := by
  unfold setFrame
  split <;> simp_all [countFC, notifyFrameChange]

theorem countFC_stop {α : Type} (lookup : Nat → Option α) (st : CState) :
    countFC (stop lookup st).2 = if st.totalFrames = 0 then 0 else 1 := by
  unfold stop
  dsimp only
  rw [countFC_append, countFC_pause, pause_fst, countFC_setFrame]
  rcases Nat.eq_zero_or_pos st.totalFrames with h0 | hpos
  · rw [if_pos (by simp; omega), if_pos h0]
  · rw [if_neg (by simp; omega), if_neg (by omega)]

theorem countFC_initCtrl {α : Type} (lookup : Nat → Option α) (n : Nat) (st : CState) :
    countFC (initCtrl lookup n st).2 = (if st.totalFrames = 0 then 0 else 1) + 1 := by
  unfold initCtrl
  dsimp only
  rw [countFC_append, countFC_stop]
  simp [countFC, notifyFrameChange]

/-- Bounds of the index `setFrameFromProgress` computes, for progress in
`[0,1]` on a non-empty controller. -/
theorem floor_idx_bounds (n : Nat) (p : ℚ) (hn : 1 ≤ n) (hp0 : 0 ≤ p) (hp1 : p ≤ 1) :
    0 ≤ ⌊p * ((max 0 ((n : Int) - 1) : Int) : ℚ)⌋ ∧
    ⌊p * ((max 0 ((n : Int) - 1) : Int) : ℚ)⌋ < (n : Int) := by
  have hmax : max 0 ((n : Int) - 1) = ((n - 1 : Nat) : Int) := by omega
  have hcast : ((max 0 ((n : Int) - 1) : Int) : ℚ) = ((n - 1 : Nat) : ℚ) := by
    rw [hmax]
    push_cast
    ring
  rw [hcast]
  constructor
  · exact Int.floor_nonneg.mpr (mul_nonneg hp0 (by positivity))
  · have hle : ⌊p * ((n - 1 : Nat) : ℚ)⌋ ≤ ((n - 1 : Nat) : Int) := by
      calc ⌊p * ((n - 1 : Nat) : ℚ)⌋
          ≤ ⌊((n - 1 : Nat) : ℚ)⌋ :=
            Int.floor_le_floor (mul_le_of_le_one_left (by positivity) hp1)
        _ = ((n - 1 : Nat) : Int) := Int.floor_natCast _
    omega

/-- C6 counterexample: from an already-initialized controller (3 frames),
`initialize(5)` fires TWO frame-change notifications (one from the internal
`stop()`, one of its own), not exactly one as claimed. -/
theorem C6_initCtrl_fires_two :
    countFC (initCtrl lookup0 5 ⟨3, 1, false, 12, true⟩).2 = 2 ∧
    countFC (initCtrl lookup0 5 ⟨3, 1, false, 12, true⟩).2 ≠ 1 := by
  decide

/-- C6 (amended): on an initialized controller (`totalFrames ≥ 1`) each
frame-affecting operation fires exactly one frame-change notification
carrying `(currentFrame, frameData-or-null)` — `setFrame` with an in-range
index (including the current value), `setFrameFromProgress` with progress in
`[0,1]`, `previousFrame`, `stop`, `goToFirstFrame`, `goToLastFrame`,
`skipFrames`, and `nextFrame` except on the last frame with looping
disabled, where it fires none; `initialize(n)` fires exactly one only from
an empty controller and fires two from an initialized one. -/
theorem C6_notification_counts {α : Type} (lookup : Nat → Option α) (st : CState)
    (h : Inv st) :
    (∀ i : Int, 0 ≤ i → i < (st.totalFrames : Int) →
      (setFrame lookup i st).2 = [Ev.frameChange i.toNat (lookup i.toNat)] ∧
      countFC (setFrame lookup i st).2 = 1) ∧
    (1 ≤ st.totalFrames → ∀ p : ℚ, 0 ≤ p → p ≤ 1 →
      countFC (setFrameFromProgress lookup p st).2 = 1) ∧
    (1 ≤ st.totalFrames → countFC (previousFrame lookup st).2 = 1) ∧
    (1 ≤ st.totalFrames → (st.currentFrame + 1 < st.totalFrames ∨ st.isLooping = true) →
      countFC (nextFrame lookup st).2 = 1) ∧
    (1 ≤ st.totalFrames → st.currentFrame = st.totalFrames - 1 → st.isLooping = false →
      countFC (nextFrame lookup st).2 = 0) ∧
    (1 ≤ st.totalFrames → countFC (stop lookup st).2 = 1) ∧
    (1 ≤ st.totalFrames → countFC (goToFirstFrame lookup st).2 = 1) ∧
    (1 ≤ st.totalFrames → countFC (goToLastFrame lookup st).2 = 1) ∧
    (1 ≤ st.totalFrames → ∀ c : Int, countFC (skipFrames lookup c st).2 = 1) ∧
    (st.totalFrames = 0 → ∀ n : Nat, countFC (initCtrl lookup n st).2 = 1) ∧
    (1 ≤ st.totalFrames → ∀ n : Nat, countFC (initCtrl lookup n st).2 = 2) := by
  refine ⟨fun i h0 h1 => ?_, fun h1 p hp0 hp1 => ?_, fun h1 => ?_, fun h1 hd => ?_,
    fun h1 hlast hnl => ?_, fun h1 => ?_, fun h1 => ?_, fun h1 => ?_, fun h1 c => ?_,
    fun h0 n => ?_, fun h1 n => ?_⟩
  · unfold setFrame
    rw [if_neg (by omega)]
    exact ⟨rfl, by simp [countFC, notifyFrameChange]⟩
  · unfold setFrameFromProgress
    rw [countFC_setFrame]
    have hb := floor_idx_bounds st.totalFrames p h1 hp0 hp1
    rw [if_neg (by omega)]
  · unfold previousFrame
    rw [if_neg (by omega)]
    dsimp only
    rw [countFC_setFrame]
    by_cases hc : st.currentFrame = 0
    · rw [if_pos hc, if_neg (by omega)]
    · have := h.2 h1
      rw [if_neg hc, if_neg (by omega)]
  · unfold nextFrame
    rw [if_neg (by omega)]
    dsimp only
    by_cases hend : st.totalFrames ≤ st.currentFrame + 1
    · have hloop : st.isLooping = true := by
        rcases hd with hd | hd
        · omega
        · exact hd
      rw [if_pos hend, if_pos hloop, countFC_setFrame, if_neg (by omega)]
    · rw [if_neg hend, countFC_setFrame, if_neg (by omega)]
  · unfold nextFrame
    rw [if_neg (by omega)]
    dsimp only
    rw [if_pos (by omega), if_neg (by simp [hnl]), countFC_pause]
  · rw [countFC_stop, if_neg (by omega)]
  · unfold goToFirstFrame
    rw [countFC_setFrame, if_neg (by omega)]
  · unfold goToLastFrame
    rw [countFC_setFrame, if_neg (by omega)]
  · unfold skipFrames
    rw [countFC_setFrame, if_neg (by omega)]
  · rw [countFC_initCtrl, if_pos h0]
  · rw [countFC_initCtrl, if_neg (by omega)]

/-- Witness for C6 (amended): `setFrame` with the current in-range index 1
on a 3-frame controller emits exactly the single notification. -/
theorem C6_notification_counts_witness :
    (setFrame lookup0 1 ⟨3, 1, false, 12, true⟩).2 = [Ev.frameChange 1 (lookup0 1)] ∧
    countFC (setFrame lookup0 1 ⟨3, 1, false, 12, true⟩).2 = 1 :=
  (C6_notification_counts lookup0 ⟨3, 1, false, 12, true⟩ (by decide)).1 1
    (by decide) (by decide)

/-! ### Claim C8 -/

/-- C8: a frame carrying trim data (both `spriteSourceSize` and
`sourceSize`) is placed at `canvasCenter + (offsetX, offsetY) * scaleFactor`
with `offsetX = spriteSourceSize.x + spriteSourceSize.w/2 - sourceSize.w/2`
(and `offsetY` analogously); a frame without trim data is placed exactly at
the canvas center `(400, 300)`. -/
theorem C8_adjustSpritePosition_spec (fd : RFrameData) (scaleFactor : ℚ) :
    (∀ sss ss, fd.spriteSourceSize = some sss → fd.sourceSize = some ss →
      adjustSpritePosition fd scaleFactor =
        (400 + (sss.x + sss.w / 2 - ss.w / 2) * scaleFactor,
         300 + (sss.y + sss.h / 2 - ss.h / 2) * scaleFactor)) ∧
    (fd.spriteSourceSize = none ∨ fd.sourceSize = none →
      adjustSpritePosition fd scaleFactor = (400, 300)) := by
  constructor
  · intro sss ss hsss hss
    unfold adjustSpritePosition
    rw [hsss, hss]
    dsimp only
    rw [show canvasCenter = ((400 : ℚ), (300 : ℚ)) from by
      unfold canvasCenter canvasWidth canvasHeight
      norm_num]
  · intro hnone
    unfold adjustSpritePosition
    rcases hnone with hn | hn
    · rw [hn]
      rcases hss : fd.sourceSize with _ | ss <;>
        · unfold canvasCenter canvasWidth canvasHeight
          norm_num
    · rw [hn]
      rcases hsss : fd.spriteSourceSize with _ | sss <;>
        · unfold canvasCenter canvasWidth canvasHeight
          norm_num

/-- Witness for C8: a concrete trimmed frame at scale 1/2. -/
theorem C8_adjustSpritePosition_spec_witness :
    adjustSpritePosition ⟨some ⟨2, 4, 6, 8⟩, some ⟨10, 20⟩⟩ (1 / 2) =
      (400 + ((2 : ℚ) + 6 / 2 - 10 / 2) * (1 / 2),
       300 + ((4 : ℚ) + 8 / 2 - 20 / 2) * (1 / 2)) :=
  (C8_adjustSpritePosition_spec ⟨some ⟨2, 4, 6, 8⟩, some ⟨10, 20⟩⟩ (1 / 2)).1
    ⟨2, 4, 6, 8⟩ ⟨10, 20⟩ rfl rfl

/-! ### Loader helper lemmas -/

theorem checkFrameBounds_ok (fs : List FrameJ) (i imgW imgH : Nat)
    (H : ∀ f ∈ fs, FrameInBounds f imgW imgH) :
    checkFrameBounds fs i imgW imgH = .ok () := by
  induction fs generalizing i with
  | nil => rfl
  | cons f fs ih =>
    have hf := H f (List.mem_cons_self f fs)
    unfold FrameInBounds at hf
    unfold checkFrameBounds
    dsimp only
    dsimp only at hf
    rw [if_neg (by omega)]
    exact ih (i + 1) fun g hg => H g (List.mem_cons_of_mem f hg)

theorem checkFrameBounds_err (fs : List FrameJ) (i imgW imgH j : Nat) (fj : FrameJ)
    (hj : fs[j]? = some fj)
    (Hok : ∀ k, k < j → ∀ fk, fs[k]? = some fk → FrameInBounds fk imgW imgH)
    (hbad : ¬ FrameInBounds fj imgW imgH) :
    checkFrameBounds fs i imgW imgH = .error (.frameBounds (i + j) (fj.filename.getD "")) := by
  induction fs generalizing i j with
  | nil => simp at hj
  | cons f fs ih =>
    cases j with
    | zero =>
      simp only [List.getElem?_cons_zero, Option.some.injEq] at hj
      subst hj
      unfold FrameInBounds at hbad
      dsimp only at hbad
      unfold checkFrameBounds
      dsimp only
      rw [if_pos (by omega)]
      simp
    | succ j' =>
      have hf : FrameInBounds f imgW imgH := Hok 0 (by omega) f (by simp)
      unfold FrameInBounds at hf
      dsimp only at hf
      simp only [List.getElem?_cons_succ] at hj
      unfold checkFrameBounds
      dsimp only
      rw [if_neg (by omega)]
      have hrec := ih (i + 1) j' hj
        fun k hk fk hfk => Hok (k + 1) (by omega) fk (by simpa using hfk)
      rw [hrec]
      have harith : i + 1 + j' = i + (j' + 1) := by omega
      rw [harith]

theorem validateTextureImage_eq (imgW imgH : Nat) (atlasData : AtlasJ) (st : LoaderState) :
    validateTextureImage (some (imgW, imgH)) atlasData st =
      (checkFrameBounds (framesOfAtlas atlasData) 0 imgW imgH,
       revokeObjectURL st.nextURL
         { st with nextURL := st.nextURL + 1, allocated := st.nextURL :: st.allocated },
       if sizeMismatch atlasData imgW imgH then ["Texture size mismatch"] else []) :=
  rfl

theorem parseAtlasJSON_ok (a b : AtlasJ) (h : parseAtlasJSON (some a) = .ok b) : b = a := by
  unfold parseAtlasJSON at h
  dsimp only at h
  cases hv : validateAtlasStructure a <;> rw [hv] at h <;> simp_all

/-! ### Claim C3 -/

/-- C3: a declared-vs-decoded size mismatch alone never fails the image
cross-check — it only emits the warning — while any frame extending beyond
the decoded image fails it with an error naming that frame's index and
filename. -/
theorem C3_size_mismatch_lenient_bounds_fatal (atlasData : AtlasJ) (st : LoaderState)
    (imgW imgH : Nat) :
    ((∀ f ∈ framesOfAtlas atlasData, FrameInBounds f imgW imgH) →
      (validateTextureImage (some (imgW, imgH)) atlasData st).1 = .ok ()) ∧
    ((validateTextureImage (some (imgW, imgH)) atlasData st).2.2 =
      if sizeMismatch atlasData imgW imgH then ["Texture size mismatch"] else []) ∧
    (∀ j fj, (framesOfAtlas atlasData)[j]? = some fj →
      (∀ k, k < j → ∀ fk, (framesOfAtlas atlasData)[k]? = some fk →
        FrameInBounds fk imgW imgH) →
      ¬ FrameInBounds fj imgW imgH →
      (validateTextureImage (some (imgW, imgH)) atlasData st).1 =
        .error (.frameBounds j (fj.filename.getD ""))) := by
  rw [validateTextureImage_eq]
  refine ⟨fun H => checkFrameBounds_ok _ 0 _ _ H, rfl, fun j fj hj Hok hbad => ?_⟩
  have h := checkFrameBounds_err (framesOfAtlas atlasData) 0 imgW imgH j fj hj Hok hbad
  simpa using h

/-- Witness for C3: the 16×16 frame of `oobAtlas` on an 8×8 decoded image
is rejected as `frameBounds 0 "a.png"`, and a mismatching declared size on
the in-bounds `scenarioAtlas` yields success with a warning. -/
theorem C3_size_mismatch_lenient_bounds_fatal_witness :
    (validateTextureImage (some (8, 8)) oobAtlas initLoader).1 =
      .error (.frameBounds 0 "a.png") ∧
    (validateTextureImage (some (64, 64)) scenarioAtlas initLoader).1 = .ok () :=
  ⟨(C3_size_mismatch_lenient_bounds_fatal oobAtlas initLoader 8 8).2.2 0 oobFrame
      (by decide) (fun k hk => by omega) (by decide),
    (C3_size_mismatch_lenient_bounds_fatal scenarioAtlas initLoader 64 64).1 (by decide)⟩

/-! ### Claim C2 -/

/-- C2 (code bug): a load that fails at the bounds-check step leaves the
object URL allocated for the texture file (handle 0) allocated — the `catch`
block's `cleanup()` only revokes a previously *stored* atlas's URL, never
the one created by the failing attempt. The claimed postcondition "after
any rejected load no image resource handle allocated by the loader remains
allocated" is violated at this input. -/
theorem C2_leaked_handle_on_failed_load :
    (loadAtlas (some (8, 8)) (some oobAtlas) initLoader).1 =
      .error (.frameBounds 0 "a.png") ∧
    (loadAtlas (some (8, 8)) (some oobAtlas) initLoader).2.1.allocated = [0] ∧
    (loadAtlas (some (8, 8)) (some oobAtlas) initLoader).2.1.allocated ≠ [] := by
  decide

/-! ### Claim C9 -/

/-- Per-component reading of the rectangle check: `(!x && x !== 0)` holds
exactly when the field is absent. -/
theorem xcond_iff (x : Option Int) : (truthyInt x = false ∧ x ≠ some 0) ↔ x = none := by
  cases x with
  | none => simp [truthyInt]
  | some v => simp [truthyInt, bne_eq_false_iff_eq]

/-- The rectangle condition of `validateFrameStructure` is exactly the
negation of `RectOk`. -/
theorem rect_cond_iff (r : RectJ) :
    ((truthyInt r.x = false ∧ r.x ≠ some 0) ∨ (truthyInt r.y = false ∧ r.y ≠ some 0) ∨
      truthyInt r.w = false ∨ truthyInt r.h = false) ↔ ¬ RectOk r := by
  unfold RectOk
  rw [xcond_iff, xcond_iff]
  constructor
  · rintro (h | h | h | h) ⟨h1, h2, h3, h4⟩ <;> simp_all
  · intro hn
    by_contra hc
    push_neg at hc
    obtain ⟨h1, h2, h3, h4⟩ := hc
    exact hn ⟨h1, h2, by simpa using h3, by simpa using h4⟩

/-- C9 counterexample: a frame rectangle with width `-3` — truthy but not a
positive number — passes `validateFrameStructure`, and a whole manifest
containing it loads successfully, so "w and h must be truthy positive
numbers" is not what the code enforces. -/
theorem C9_negative_width_accepted :
    negFrame.frame = some ⟨some 0, some 0, some (-3), some 4⟩ ∧
    ¬ (0 < (-3 : Int)) ∧
    validateFrameStructure negFrame 0 = .ok () ∧
    (loadAtlas (some (8, 8)) (some negAtlas) initLoader).1 = .ok negLoaded := by
  decide

/-- C9 (amended): for a frame record whose required fields are present,
structural validation enforces exactly that the rectangle's `x` and `y` are
present (zero valid, absence fatal) and that `w` and `h` are truthy
(present and nonzero — negative values are accepted); a violating frame
fails with `frameCoords` naming that frame's index, and a manifest whose
frame at index 1 violates it fails to load with that error. -/
theorem C9_frame_rect_validation (f : FrameJ) (index : Nat)
    (hfn : f.filename.isNone = false) (hfr : f.frame.isNone = false)
    (hss : f.sourceSize.isNone = false) :
    (¬ RectOk (f.frame.getD ⟨none, none, none, none⟩) →
      validateFrameStructure f index = .error (.frameCoords index)) ∧
    (RectOk (f.frame.getD ⟨none, none, none, none⟩) →
      validateFrameStructure f index ≠ .error (.frameCoords index)) ∧
    (loadAtlas (some (64, 64)) (some badCoordsAtlas) initLoader).1 =
      .error (.frameCoords 1) := by
  refine ⟨fun hbad => ?_, fun hok => ?_, by decide⟩
  · unfold validateFrameStructure
    rw [hfn, hfr, hss, if_neg Bool.false_ne_true, if_neg Bool.false_ne_true,
      if_neg Bool.false_ne_true]
    dsimp only
    rw [if_pos ((rect_cond_iff _).mpr hbad)]
  · unfold validateFrameStructure
    rw [hfn, hfr, hss, if_neg Bool.false_ne_true, if_neg Bool.false_ne_true,
      if_neg Bool.false_ne_true]
    dsimp only
    rw [if_neg fun hc => ((rect_cond_iff _).mp hc) hok]
    split
    · simp
    · split <;> simp

/-- Witness for C9 (amended): a frame with `x` absent is rejected as
`frameCoords 7`, and `negFrame` (all rectangle conditions met) is not. -/
theorem C9_frame_rect_validation_witness :
    validateFrameStructure
      ⟨some "bad.png", some ⟨none, some 0, some 16, some 16⟩, some ⟨some 16, some 16⟩, none⟩ 7 =
      .error (.frameCoords 7) ∧
    validateFrameStructure negFrame 3 ≠ .error (.frameCoords 3) :=
  ⟨(C9_frame_rect_validation
      ⟨some "bad.png", some ⟨none, some 0, some 16, some 16⟩, some ⟨some 16, some 16⟩, none⟩ 7
      rfl rfl rfl).1 (by decide),
    (C9_frame_rect_validation negFrame 3 rfl rfl rfl).2.1 (by decide)⟩

/-! ### Claim C1 -/

theorem natCompare_swap (a b : Nat) : compare b a = (compare a b).swap := by
  rcases Nat.lt_trichotomy a b with h | h | h
  · rw [Nat.compare_eq_lt.mpr h, Nat.compare_eq_gt.mpr h]
    rfl
  · subst h
    rw [Nat.compare_eq_eq.mpr rfl]
    rfl
  · rw [Nat.compare_eq_gt.mpr h, Nat.compare_eq_lt.mpr h]
    rfl

theorem cmpChars_swap (a b : List Char) : cmpChars b a = (cmpChars a b).swap := by
  induction a generalizing b with
  | nil => cases b <;> rfl
  | cons x xs ih =>
    cases b with
    | nil => rfl
    | cons y ys =>
      unfold cmpChars
      rw [natCompare_swap]
      cases compare x.toNat y.toNat with
      | lt => rfl
      | eq => exact ih ys
      | gt => rfl

theorem cmpTok_swap (a b : NatTok) : cmpTok b a = (cmpTok a b).swap := by
  cases a <;> cases b <;> first
    | rfl
    | exact natCompare_swap _ _
    | exact cmpChars_swap _ _

theorem cmpTokList_swap (a b : List NatTok) : cmpTokList b a = (cmpTokList a b).swap := by
  induction a generalizing b with
  | nil => cases b <;> rfl
  | cons x xs ih =>
    cases b with
    | nil => rfl
    | cons y ys =>
      unfold cmpTokList
      rw [cmpTok_swap]
      cases cmpTok x y with
      | lt => rfl
      | eq => exact ih ys
      | gt => rfl

theorem naturalCompare_swap (a b : String) : naturalCompare b a = (naturalCompare a b).swap :=
  cmpTokList_swap _ _

theorem frameLe_total (a b : FrameJ) : frameLe a b = true ∨ frameLe b a = true := by
  unfold frameLe
  by_cases h : naturalCompare (a.filename.getD "") (b.filename.getD "") = .gt
  · right
    rw [naturalCompare_swap, h]
    simp [Ordering.swap]
  · left
    simp [h]

theorem insertSorted_head {α : Type} (le : α → α → Bool) (x : α) (l : List α) :
    (insertSorted le x l).head? = some x ∨ (insertSorted le x l).head? = l.head? := by
  cases l with
  | nil => left; rfl
  | cons y ys =>
    unfold insertSorted
    split
    · left; rfl
    · right; rfl

theorem chain'_insertSorted {α : Type} (le : α → α → Bool)
    (htot : ∀ a b, le a b = true ∨ le b a = true) (x : α) (l : List α)
    (hl : List.Chain' (fun a b => le a b = true) l) :
    List.Chain' (fun a b => le a b = true) (insertSorted le x l) := by
  induction l with
  | nil => simp [insertSorted]
  | cons y ys ih =>
    unfold insertSorted
    split
    · rename_i hxy
      exact List.chain'_cons.mpr ⟨hxy, hl⟩
    · rename_i hxy
      have hyx : le y x = true := by
        rcases htot x y with h | h
        · exact absurd h hxy
        · exact h
      rw [List.chain'_cons']
      refine ⟨fun h hh => ?_, ih hl.tail⟩
      rcases insertSorted_head le x ys with hh' | hh'
      · rw [hh'] at hh
        cases hh
        exact hyx
      · rw [hh'] at hh
        cases ys with
        | nil => cases hh
        | cons z zs =>
          cases hh
          exact (List.chain'_cons.mp hl).1

theorem sortByLe_chain {α : Type} (le : α → α → Bool)
    (htot : ∀ a b, le a b = true ∨ le b a = true) (l : List α) :
    List.Chain' (fun a b => le a b = true) (sortByLe le l) := by
  induction l with
  | nil => simp [sortByLe]
  | cons x xs ih => exact chain'_insertSorted le htot x _ ih

theorem insertSorted_perm {α : Type} (le : α → α → Bool) (x : α) (l : List α) :
    (insertSorted le x l).Perm (x :: l) := by
  induction l with
  | nil => rfl
  | cons y ys ih =>
    unfold insertSorted
    split
    · rfl
    · exact (ih.cons y).trans (List.Perm.swap x y ys)

theorem sortByLe_perm {α : Type} (le : α → α → Bool) (l : List α) :
    (sortByLe le l).Perm l := by
  induction l with
  | nil => rfl
  | cons x xs ih => exact (insertSorted_perm le x _).trans (ih.cons x)

/-- C1: every successful load returns exactly the stable sort of the first
texture sheet's frames under the natural (numeric-aware) filename
comparison — a permutation of the manifest's frames in which adjacent
frames are ordered by `naturalCompare`; the scenario manifest
`["a_02.png", "a_10.png", "a_1.png"]` loads to the order
`["a_1.png", "a_02.png", "a_10.png"]`, and `frame_9` sorts before
`frame_10`. -/
theorem C1_loadAtlas_natural_sort :
    (∀ (textureFile : ImgFile) (data : AtlasJ) (st : LoaderState)
      (la : LoadedAtlas) (st' : LoaderState) (warns : List String),
      loadAtlas textureFile (some data) st = (.ok la, st', warns) →
      la.frames = sortByLe frameLe (framesOfAtlas data) ∧
      la.frames.Chain' (fun a b => frameLe a b = true) ∧
      la.frames.Perm (framesOfAtlas data)) ∧
    loadedFilenames (loadAtlas (some (64, 64)) (some scenarioAtlas) initLoader).1 =
      ["a_1.png", "a_02.png", "a_10.png"] ∧
    naturalCompare "frame_9" "frame_10" = .lt := by
  refine ⟨fun textureFile data st la st' warns hload => ?_, by decide, by decide⟩
  have heq : la.frames = sortByLe frameLe (framesOfAtlas data) := by
    unfold loadAtlas at hload
    cases hp : parseAtlasJSON (some data) with
    | error e =>
      rw [hp] at hload
      simp at hload
    | ok d =>
      have hd : d = data := parseAtlasJSON_ok data d hp
      subst hd
      rw [hp] at hload
      dsimp only [createObjectURL] at hload
      rcases hv : validateTextureImage textureFile d
          { st with nextURL := st.nextURL + 1, allocated := st.nextURL :: st.allocated } with
        ⟨res, st₂, ws⟩
      rw [hv] at hload
      cases res with
      | error e => simp at hload
      | ok u =>
        dsimp only at hload
        simp only [Prod.mk.injEq, Except.ok.injEq] at hload
        rw [← hload.1]
  refine ⟨heq, ?_, ?_⟩
  · rw [heq]
    exact sortByLe_chain frameLe frameLe_total _
  · rw [heq]
    exact sortByLe_perm frameLe _

/-- Witness for C1: the scenario load satisfies the general sorting
equation. -/
theorem C1_loadAtlas_natural_sort_witness :
    scenarioLoaded.frames = sortByLe frameLe (framesOfAtlas scenarioAtlas) :=
  (C1_loadAtlas_natural_sort.1 (some (64, 64)) scenarioAtlas initLoader scenarioLoaded
    scenarioState [] (by decide)).1

end AtlasViewer
